import Mathlib

/-!
Verification of the meme-pipeline repository: a shallow embedding of the
selection-and-publish core (quality scorer, history ledger, publisher
adapter, cycle orchestrator) together with proofs about the spec's claims.

Sources embedded:
- discord_bot.py        (DiscordPublisher: history ledger + post_content)
- ai_meme_selector.py   (MemeSelector.score_meme and its heuristic)
- master_pipeline.py    (MasterPipeline.run_cycle: selection + publishing loop)

Machine reals (Python floats) are modelled as rationals; Python lists are
Lean lists; exceptions are modelled by explicit outcome flags supplied by an
environment record, or by Except where a single call is modelled.
-/

/-! ### MD5 over natural numbers
discord_bot.py derives content ids with hashlib's md5 (RFC 1321).  Words are
naturals taken modulo 2^32; messages are lists of byte values. -/

/-- Left-rotation of a 32-bit word (a natural below 2^32) by s bits. -/
def rotl32 (x s : ℕ) : ℕ :=
  (((x <<< s) % 4294967296) ||| (x >>> (32 - s)))

/-- Round function F of RFC 1321: (B and C) or ((not B) and D). -/
def md5F (b c d : ℕ) : ℕ := (b &&& c) ||| ((b ^^^ 4294967295) &&& d)

/-- Round function G of RFC 1321: (D and B) or ((not D) and C). -/
def md5G (b c d : ℕ) : ℕ := (d &&& b) ||| ((d ^^^ 4294967295) &&& c)

/-- Round function H of RFC 1321: B xor C xor D. -/
def md5H (b c d : ℕ) : ℕ := b ^^^ c ^^^ d

/-- Round function I of RFC 1321: C xor (B or (not D)). -/
def md5I (b c d : ℕ) : ℕ := c ^^^ (b ||| (d ^^^ 4294967295))

/-- Per-round shift amounts of RFC 1321. -/
def md5S : List ℕ :=
  [7, 12, 17, 22, 7, 12, 17, 22, 7, 12, 17, 22, 7, 12, 17, 22,
   5, 9, 14, 20, 5, 9, 14, 20, 5, 9, 14, 20, 5, 9, 14, 20,
   4, 11, 16, 23, 4, 11, 16, 23, 4, 11, 16, 23, 4, 11, 16, 23,
   6, 10, 15, 21, 6, 10, 15, 21, 6, 10, 15, 21, 6, 10, 15, 21]

/-- Per-round additive constants of RFC 1321 (floor of abs(sin(i+1)) * 2^32). -/
def md5K : List ℕ :=
  [0xd76aa478, 0xe8c7b756, 0x242070db, 0xc1bdceee,
   0xf57c0faf, 0x4787c62a, 0xa8304613, 0xfd469501,
   0x698098d8, 0x8b44f7af, 0xffff5bb1, 0x895cd7be,
   0x6b901122, 0xfd987193, 0xa679438e, 0x49b40821,
   0xf61e2562, 0xc040b340, 0x265e5a51, 0xe9b6c7aa,
   0xd62f105d, 0x02441453, 0xd8a1e681, 0xe7d3fbc8,
   0x21e1cde6, 0xc33707d6, 0xf4d50d87, 0x455a14ed,
   0xa9e3e905, 0xfcefa3f8, 0x676f02d9, 0x8d2a4c8a,
   0xfffa3942, 0x8771f681, 0x6d9d6122, 0xfde5380c,
   0xa4beea44, 0x4bdecfa9, 0xf6bb4b60, 0xbebfbc70,
   0x289b7ec6, 0xeaa127fa, 0xd4ef3085, 0x04881d05,
   0xd9d4d039, 0xe6db99e5, 0x1fa27cf8, 0xc4ac5665,
   0xf4292244, 0x432aff97, 0xab9423a7, 0xfc93a039,
   0x655b59c3, 0x8f0ccc92, 0xffeff47d, 0x85845dd1,
   0x6fa87e4f, 0xfe2ce6e0, 0xa3014314, 0x4e0811a1,
   0xf7537e82, 0xbd3af235, 0x2ad7d2bb, 0xeb86d391]

/-- Little-endian byte decomposition of a natural into k bytes. -/
def le_bytes : ℕ → ℕ → List ℕ
  | 0, _ => []
  | k + 1, n => (n % 256) :: le_bytes k (n / 256)

/-- The sixteen little-endian 32-bit words of one 64-byte chunk. -/
def words16 : List ℕ → List ℕ
  | b0 :: b1 :: b2 :: b3 :: rest =>
      (b0 + 256 * b1 + 65536 * b2 + 16777216 * b3) :: words16 rest
  | _ => []

/-- One MD5 round i over message words m on state (a, b, c, d). -/
def md5_round (m : List ℕ) (st : ℕ × ℕ × ℕ × ℕ) (i : ℕ) : ℕ × ℕ × ℕ × ℕ :=
  let a := st.1
  let b := st.2.1
  let c := st.2.2.1
  let d := st.2.2.2
  let f :=
    if i < 16 then md5F b c d
    else if i < 32 then md5G b c d
    else if i < 48 then md5H b c d
    else md5I b c d
  let g :=
    if i < 16 then i
    else if i < 32 then (5 * i + 1) % 16
    else if i < 48 then (3 * i + 5) % 16
    else (7 * i) % 16
  let t := (f + a + md5K.getD i 0 + m.getD g 0) % 4294967296
  (d, (b + rotl32 t (md5S.getD i 0)) % 4294967296, b, c)

/-- Process one 64-byte chunk: 64 rounds, then add into the running state. -/
def md5_chunk (st : ℕ × ℕ × ℕ × ℕ) (chunk : List ℕ) : ℕ × ℕ × ℕ × ℕ :=
  let r := (List.range 64).foldl (md5_round (words16 chunk)) st
  ((st.1 + r.1) % 4294967296, (st.2.1 + r.2.1) % 4294967296,
   (st.2.2.1 + r.2.2.1) % 4294967296, (st.2.2.2 + r.2.2.2) % 4294967296)

/-- Split a byte list into 64-byte chunks; fuel bounds the recursion so the
definition is structural (call it with fuel at least the list's length). -/
def chunks64 : ℕ → List ℕ → List (List ℕ)
  | 0, _ => []
  | _, [] => []
  | fuel + 1, l => l.take 64 :: chunks64 fuel (l.drop 64)

/-- RFC 1321 padding: 0x80, zeros to 56 mod 64, then the bit length as eight
little-endian bytes (taken modulo 2^64). -/
def md5_pad (msg : List ℕ) : List ℕ :=
  let r := (msg.length + 1) % 64
  let zeros := (120 - r) % 64
  msg ++ [128] ++ List.replicate zeros 0 ++ le_bytes 8 ((msg.length * 8) % 18446744073709551616)

/-- The sixteen digest bytes of a byte message. -/
def md5_bytes (msg : List ℕ) : List ℕ :=
  let padded := md5_pad msg
  let r := (chunks64 padded.length padded).foldl md5_chunk
    (0x67452301, 0xefcdab89, 0x98badcfe, 0x10325476)
  le_bytes 4 r.1 ++ le_bytes 4 r.2.1 ++ le_bytes 4 r.2.2.1 ++ le_bytes 4 r.2.2.2

/-- A hex digit character, lowercase as Python's hexdigest prints. -/
def hex_digit (n : ℕ) : Char :=
  if n < 10 then Char.ofNat (48 + n) else Char.ofNat (87 + n)

/-- Lowercase hex rendering of a byte list. -/
def bytes_hex (bs : List ℕ) : String :=
  String.mk (bs.foldr (fun b acc => hex_digit (b / 16) :: hex_digit (b % 16) :: acc) [])

/-- UTF-8 encoding of one character, as Python's str.encode produces. -/
def utf8_bytes_char (c : Char) : List ℕ :=
  let n := c.toNat
  if n < 128 then [n]
  else if n < 2048 then [192 + n / 64, 128 + n % 64]
  else if n < 65536 then [224 + n / 4096, 128 + (n / 64) % 64, 128 + n % 64]
  else [240 + n / 262144, 128 + (n / 4096) % 64, 128 + (n / 64) % 64, 128 + n % 64]

/-- UTF-8 bytes of a string. -/
def str_bytes (s : String) : List ℕ :=
  s.data.foldr (fun c acc => utf8_bytes_char c ++ acc) []

/-- hashlib.md5(s.encode()).hexdigest(): the 32-character lowercase digest. -/
def md5hex (s : String) : String := bytes_hex (md5_bytes (str_bytes s))

/-! ### Path basename and content ids
discord_bot.py, _generate_content_id: the id is the first 16 hex characters
of the md5 of Path(file_path).name. -/

/-- Split a character list on the slash separator. -/
def split_slash (l : List Char) : List (List Char) :=
  l.foldr
    (fun c acc =>
      if c = '/' then [] :: acc
      else
        match acc with
        | [] => [[c]]
        | a :: rest => (c :: a) :: rest)
    [[]]

/-- pathlib's PurePath.name: the last path component, with empty and single-dot
components dropped (pathlib normalises them away); empty when none remains. -/
def path_name (fp : String) : String :=
  let segs := (split_slash fp.data).filter (fun seg => seg ≠ [] ∧ seg ≠ ['.'])
  match segs.getLast? with
  | none => ""
  | some s => String.mk s

/-- Python string slicing s[:n]: the first n characters. -/
def str_take (s : String) (n : ℕ) : String := String.mk (s.data.take n)

/-- DiscordPublisher._generate_content_id: md5 of the file's basename,
truncated to 16 hex characters. -/
def generate_content_id (fp : String) : String := str_take (md5hex (path_name fp)) 16

/-! ### History ledger
discord_bot.py: posted_history["posted"] is a list of entries; _save_history
trims it to the last max_history_entries entries (Python slice [-max:]) when
it grows past the cap, then writes it out.  The timestamp and metadata fields
of an entry play no role in any claim and are omitted. -/

/-- One entry of posted_history["posted"]. -/
structure PostedEntry where
  content_id : String
  file_path : String
  ai_score : ℚ
deriving DecidableEq

/-- DiscordPublisher.is_already_posted: membership of the id in the list of
recorded content ids. -/
def is_already_posted (cid : String) (posted : List PostedEntry) : Bool :=
  decide (cid ∈ posted.map (fun e => e.content_id))

/-- Python slice l[-k:]: the last k elements when k is at least 1; the whole
list when k = 0 (since l[-0:] is l[0:]). -/
def slice_last {α : Type} (k : ℕ) (l : List α) : List α :=
  if k = 0 then l else l.drop (l.length - k)

/-- The trim step of DiscordPublisher._save_history: when the list has grown
past max_entries, keep l[-max_entries:]. -/
def save_history_trim {α : Type} (maxE : ℕ) (l : List α) : List α :=
  if maxE < l.length then slice_last maxE l else l

/-- DiscordPublisher._record_post followed by _save_history with the write
succeeding: append the new entry, then trim.  The result is both the new
in-memory list and the newly persisted one. -/
def record_post (maxE : ℕ) (l : List PostedEntry) (e : PostedEntry) : List PostedEntry :=
  save_history_trim maxE (l ++ [e])

/-- The possible states of the ledger's backing file when _load_history runs:
absent, present but unreadable (an I/O error on open or read), present but
not decodable as JSON, or well-formed with a list of entries. -/
inductive LedgerFile where
  | missing
  | unreadable
  | corrupt
  | wellFormed (entries : List PostedEntry)

/-- DiscordPublisher._load_history: a missing file and a JSONDecodeError both
yield the empty history; only json.JSONDecodeError is caught, so an I/O error
while opening or reading an existing file propagates as an exception. -/
def load_history : LedgerFile → Except Unit (List PostedEntry)
  | LedgerFile.missing => Except.ok []
  | LedgerFile.unreadable => Except.error ()
  | LedgerFile.corrupt => Except.ok []
  | LedgerFile.wellFormed l => Except.ok l

/-! ### Publisher adapter
discord_bot.py, DiscordPublisher.post_content.  The Discord client and file
system are modelled by an environment of outcome oracles; the publisher's
observable state is the in-memory history, the persisted history, and the
ordered log of channel.send calls. -/

/-- Outcome of the external channel.send call: success, discord.Forbidden, or
discord.HTTPException. -/
inductive SendOutcome where
  | ok
  | forbidden
  | httpError
deriving DecidableEq

/-- External conditions for one pipeline run: whether the configured channel
resolves, whether discord.File can open a path, how channel.send behaves per
path, whether reactions are enabled and whether add_reaction raises per path,
whether the history write succeeds, and whether caption generation raises per
path (used by the orchestrator loop). -/
structure PubEnv where
  channelExists : Bool
  fileOk : String → Bool
  sendOutcome : String → SendOutcome
  enableReactions : Bool
  reactionFails : String → Bool
  persistOk : Bool
  captionFails : String → Bool

/-- Observable publisher state: in-memory history list, persisted history
list, and the log of external send calls in order. -/
structure PubState where
  posted : List PostedEntry
  persisted : List PostedEntry
  sends : List String
deriving DecidableEq

/-- DiscordPublisher.post_content: resolve the channel, check the ledger,
open the file, send, optionally add reactions, then record and persist.
Every raised exception is caught and turned into the False result; the send
log records each channel.send call made, successful or not. -/
def post_content (env : PubEnv) (maxE : ℕ) (st : PubState) (fp : String) (sc : ℚ) :
    Bool × PubState :=
  if env.channelExists = false then (false, st)
  else if is_already_posted (generate_content_id fp) st.posted then (false, st)
  else if env.fileOk fp = false then (false, st)
  else
    let st1 : PubState := { st with sends := st.sends ++ [fp] }
    match env.sendOutcome fp with
    | SendOutcome.forbidden => (false, st1)
    | SendOutcome.httpError => (false, st1)
    | SendOutcome.ok =>
      if env.enableReactions && env.reactionFails fp then (false, st1)
      else
        let newPosted := record_post maxE st1.posted
          { content_id := generate_content_id fp, file_path := fp, ai_score := sc }
        if env.persistOk then
          (true, { st1 with posted := newPosted, persisted := newPosted })
        else
          (false, { st1 with posted := newPosted })

/-! ### Selection
master_pipeline.py, run_cycle step 2: keep items whose score meets the
threshold, stable-sort them by score descending (Python list.sort with
reverse=True is stable), and keep the top max_daily. -/

/-- A scored item as the orchestrator sees it: its local path and ai_score. -/
structure SelItem where
  path : String
  score : ℚ
deriving DecidableEq

/-- Stable insertion of an item into a descending-sorted list: the item
moves past entries with strictly greater score and lands before the first
entry whose score is not greater, so among equal scores the earlier-inserted
item stays first, exactly as a stable descending sort places it. -/
def insert_desc (a : SelItem) : List SelItem → List SelItem
  | [] => [a]
  | b :: l => if a.score < b.score then b :: insert_desc a l else a :: b :: l

/-- Stable sort by score descending, matching Python's stable
sort(key=score, reverse=True). -/
def sort_desc : List SelItem → List SelItem
  | [] => []
  | a :: l => insert_desc a (sort_desc l)

/-- run_cycle's selection: threshold filter, stable descending sort,
truncation to the per-cycle budget.  The ledger is not consulted here. -/
def select_items (items : List SelItem) (minScore : ℚ) (maxDaily : ℕ) : List SelItem :=
  (sort_desc (items.filter (fun i => decide (minScore ≤ i.score)))).take maxDaily

/-! ### Quality scorer
ai_meme_selector.py.  The CLIP sub-score is an opaque rational input (its
internals are tensor arithmetic outside the core contract); the heuristic is
embedded in full from _get_heuristic_score over the measurable properties of
the decoded image.  Python floats are modelled as rationals. -/

/-- Properties cv2.imread exposes of a decoded image: its shape and the two
derived statistics the heuristic reads. -/
structure ImgProps where
  height : ℕ
  width : ℕ
  laplacianVar : ℚ
  colorStd : ℚ

/-- min(max(x, 0.0), 1.0), the clamp used by the scorer. -/
def clamp01 (x : ℚ) : ℚ := min (max x 0) 1

/-- MemeSelector._get_heuristic_score.  The argument is cv2.imread's result:
none when the image cannot be decoded (imread returned None), which yields
0.3.  A zero height would raise ZeroDivisionError at the aspect computation,
which the handler turns into 0.5. -/
def get_heuristic_score : Option ImgProps → ℚ
  | none => mkRat 3 10
  | some img =>
    if img.height = 0 then mkRat 1 2
    else
      let pixels := img.height * img.width
      let s1 :=
        if 1920 * 1080 ≤ pixels then mkRat 1 2 + mkRat 15 100
        else if 1280 * 720 ≤ pixels then mkRat 1 2 + mkRat 10 100
        else if pixels < 400 * 400 then mkRat 1 2 - mkRat 20 100
        else mkRat 1 2
      let aspect : ℚ := (img.width : ℚ) / (img.height : ℚ)
      let s2 :=
        if mkRat 8 10 ≤ aspect ∧ aspect ≤ mkRat 15 10 then s1 + mkRat 5 100
        else if aspect < mkRat 5 10 ∨ mkRat 3 1 < aspect then s1 - mkRat 10 100
        else s1
      let s3 :=
        if 500 < img.laplacianVar then s2 + mkRat 10 100
        else if img.laplacianVar < 100 then s2 - mkRat 15 100
        else s2
      let s4 :=
        if 50 < img.colorStd then s3 + mkRat 5 100
        else if img.colorStd < 20 then s3 - mkRat 10 100
        else s3
      clamp01 s4

/-- MemeSelector.score_meme: when Image.open succeeds the score is the
clamped weighted sum of the CLIP sub-score and the heuristic; when it raises,
the handler returns 0.0.  clipScore is whatever _get_clip_score returned and
imread is cv2.imread's result for the same path. -/
def score_meme (opensOk : Bool) (clipScore : ℚ) (imread : Option ImgProps) : ℚ :=
  if opensOk then
    clamp01 (clipScore * mkRat 6 10 + get_heuristic_score imread * mkRat 4 10)
  else 0

/-! ### The publishing loop
master_pipeline.py, run_cycle step 3: iterate the selected items; caption
each (an exception skips the item), post it, and after a successful post
sleep for post_interval when the count of posted items is still below the
number of selected items. -/

/-- Observable events of one publishing loop, in order: a post_content call
with its boolean result, an inter-post sleep, or an item skipped because
caption generation raised. -/
inductive PubEvent where
  | attempt (path : String) (posted : Bool)
  | sleep
  | capfail (path : String)
deriving DecidableEq

/-- Prepend an event to a loop result. -/
def cons_ev (e : PubEvent) (r : PubState × ℕ × List PubEvent) :
    PubState × ℕ × List PubEvent :=
  (r.1, r.2.1, e :: r.2.2)

/-- The for-loop of run_cycle step 3 over the selected items.  posted is the
running count of successful posts; total is len(selected), fixed before the
loop.  The sleep happens exactly when a post succeeded and the incremented
count is still below total. -/
def publish_loop (env : PubEnv) (maxE : ℕ) :
    PubState → ℕ → ℕ → List SelItem → PubState × ℕ × List PubEvent
  | st, posted, _, [] => (st, posted, [])
  | st, posted, total, i :: rest =>
    if env.captionFails i.path = true then
      cons_ev (PubEvent.capfail i.path) (publish_loop env maxE st posted total rest)
    else if (post_content env maxE st i.path i.score).1 = true then
      if posted + 1 < total then
        cons_ev (PubEvent.attempt i.path true) (cons_ev PubEvent.sleep
          (publish_loop env maxE (post_content env maxE st i.path i.score).2
            (posted + 1) total rest))
      else
        cons_ev (PubEvent.attempt i.path true)
          (publish_loop env maxE (post_content env maxE st i.path i.score).2
            (posted + 1) total rest)
    else
      cons_ev (PubEvent.attempt i.path false)
        (publish_loop env maxE (post_content env maxE st i.path i.score).2 posted total rest)

/-- Where sleeps may appear in a publishing trace, given the total number of
selected items: never at the front, never after a failed attempt or a skipped
item, and after a successful attempt exactly when the cumulative count of
successes (p counts those before the trace) is still below the total. -/
inductive SleepSpec (total : ℕ) : ℕ → List PubEvent → Prop
  | nil (p : ℕ) : SleepSpec total p []
  | skip (p : ℕ) (q : String) (tr : List PubEvent) :
      SleepSpec total p tr → SleepSpec total p (PubEvent.capfail q :: tr)
  | fail (p : ℕ) (q : String) (tr : List PubEvent) :
      SleepSpec total p tr → SleepSpec total p (PubEvent.attempt q false :: tr)
  | post_sleep (p : ℕ) (q : String) (tr : List PubEvent) :
      p + 1 < total → SleepSpec total (p + 1) tr →
      SleepSpec total p (PubEvent.attempt q true :: PubEvent.sleep :: tr)
  | post_done (p : ℕ) (q : String) (tr : List PubEvent) :
      ¬ p + 1 < total → SleepSpec total (p + 1) tr →
      SleepSpec total p (PubEvent.attempt q true :: tr)

/-! ### Concrete instances used by counterexamples and witnesses -/

/-- An environment where everything succeeds; reactions are disabled and
captions never raise. -/
def envOk : PubEnv :=
  { channelExists := true
    fileOk := fun _ => true
    sendOutcome := fun _ => SendOutcome.ok
    enableReactions := false
    reactionFails := fun _ => false
    persistOk := true
    captionFails := fun _ => false }

/-- Like envOk, but reactions are enabled and every add_reaction call raises
discord.HTTPException. -/
def envReactFail : PubEnv :=
  { envOk with enableReactions := true, reactionFails := fun _ => true }

/-- Like envOk, but channel.send raises discord.HTTPException for b.jpg. -/
def envBFail : PubEnv :=
  { envOk with sendOutcome := fun p => if p = "b.jpg" then SendOutcome.httpError else SendOutcome.ok }

/-- Like envOk, but caption generation raises for every item. -/
def envCapFail : PubEnv :=
  { envOk with captionFails := fun _ => true }

/-- The empty publisher state. -/
def st0 : PubState := { posted := [], persisted := [], sends := [] }

/-- A scored item whose payload lives at a/x.jpg. -/
def itemX : SelItem := { path := "a/x.jpg", score := mkRat 9 10 }

/-- The ledger entry recorded for itemX. -/
def entryX : PostedEntry :=
  { content_id := generate_content_id "a/x.jpg", file_path := "a/x.jpg", ai_score := mkRat 9 10 }

/-- A ledger snapshot that already contains itemX. -/
def ledgerX : List PostedEntry := [entryX]

/-- A publisher state whose ledger already contains itemX. -/
def stX : PubState := { posted := ledgerX, persisted := ledgerX, sends := [] }

/-- Three distinct ledger entries for the boundedness witnesses. -/
def entE1 : PostedEntry := { content_id := "id1", file_path := "p1", ai_score := 0 }

/-- Second sample ledger entry. -/
def entE2 : PostedEntry := { content_id := "id2", file_path := "p2", ai_score := 0 }

/-- Third sample ledger entry. -/
def entE3 : PostedEntry := { content_id := "id3", file_path := "p3", ai_score := 0 }

/-- A two-item selection whose first item will fail to send under envBFail
and whose second will post. -/
def selBA : List SelItem :=
  [{ path := "b.jpg", score := mkRat 7 10 }, { path := "a.jpg", score := mkRat 9 10 }]

/-- A one-item selection for the caption-failure counterexample. -/
def selA : List SelItem := [{ path := "a.jpg", score := mkRat 9 10 }]

/-! ### Helper lemmas -/

/-- Membership through stable descending insertion. -/
theorem mem_insert_desc (a b : SelItem) (l : List SelItem) :
    a ∈ insert_desc b l ↔ a = b ∨ a ∈ l := by
  induction l with
  | nil => simp [insert_desc]
  | cons c l ih =>
    by_cases h : b.score < c.score
    · simp only [insert_desc, h, if_true, List.mem_cons, ih]
      tauto
    · simp [insert_desc, h]

/-- The stable descending sort permutes its input, so membership is
preserved. -/
theorem mem_sort_desc (a : SelItem) (l : List SelItem) :
    a ∈ sort_desc l ↔ a ∈ l := by
  induction l with
  | nil => simp [sort_desc]
  | cons b l ih => simp [sort_desc, mem_insert_desc, ih]

/-- The clamp is bounded below by zero. -/
theorem clamp01_nonneg (x : ℚ) : 0 ≤ clamp01 x :=
  le_min (le_max_right x 0) zero_le_one

/-- The clamp is bounded above by one. -/
theorem clamp01_le_one (x : ℚ) : clamp01 x ≤ 1 := min_le_right _ _

/-- An entry just recorded is present in the trimmed history, whatever the
cap: the trim only ever removes from the front. -/
theorem already_in_record_post (maxE : ℕ) (l : List PostedEntry) (e : PostedEntry) :
    is_already_posted e.content_id (record_post maxE l e) = true := by
  have hmem : e ∈ record_post maxE l e := by
    unfold record_post save_history_trim slice_last
    by_cases h1 : maxE < (l ++ [e]).length
    · by_cases h0 : maxE = 0
      · simp [h1, h0]
      · have hd : (l ++ [e]).length - maxE ≤ l.length := by
          simp only [List.length_append, List.length_singleton]
          omega
        simp only [h1, if_true, h0, if_false]
        rw [List.drop_append_of_le_length hd]
        simp
    · have h1b : ¬ maxE < l.length + 1 := by simpa using h1
      simp [h1b]
  unfold is_already_posted
  simp only [decide_eq_true_eq]
  exact List.mem_map_of_mem _ hmem

/-! ### C1: selection and the ledger -/

/-- C1, counterexample: an item whose content id is already in the ledger,
with score 0.9 against threshold 0.5, still appears in the selected output —
run_cycle's selection never consults the ledger. -/
theorem c1_counterexample :
    is_already_posted (generate_content_id itemX.path) ledgerX = true
    ∧ mkRat 1 2 ≤ itemX.score
    ∧ itemX ∈ select_items [itemX] (mkRat 1 2) 10 := by
  refine ⟨?_, by decide, by decide⟩
  simp [is_already_posted, ledgerX, entryX, itemX]

/-- C1, amended: selection is a function of the scored items, threshold and
budget alone — every selected item merely passed the threshold filter — and
an item already present in the ledger is stopped only later, by the
publisher, which returns the failed result and leaves the state untouched
without any external send. -/
theorem c1_selection_ignores_ledger (items : List SelItem) (thr : ℚ) (maxD : ℕ)
    (env : PubEnv) (maxE : ℕ) (st : PubState) (sc : ℚ) (i : SelItem) :
    (i ∈ select_items items thr maxD → thr ≤ i.score ∧ i ∈ items)
    ∧ (is_already_posted (generate_content_id i.path) st.posted = true →
        post_content env maxE st i.path sc = (false, st)) := by
  constructor
  · intro hmem
    have h1 : i ∈ sort_desc (items.filter fun j => decide (thr ≤ j.score)) :=
      List.take_subset _ _ hmem
    have h2 := (mem_sort_desc i _).mp h1
    have h3 := List.mem_filter.mp h2
    exact ⟨of_decide_eq_true h3.2, h3.1⟩
  · intro hpos
    cases hch : env.channelExists <;> simp [post_content, hch, hpos]

/-! ### C2: publish success accounting -/

/-- C2: post_content reports success precisely when the channel resolved,
the item was new, the file opened, the send and reaction phases succeeded
and the history write succeeded; a failed persist never reports success; a
channel-level failure (missing channel, Forbidden, HTTPException) reports
failure with no history mutation, leaving the item as eligible as before. -/
theorem c2_publish_success_iff (env : PubEnv) (maxE : ℕ) (st : PubState)
    (fp : String) (sc : ℚ) :
    ((post_content env maxE st fp sc).1 = true ↔
      (env.channelExists = true
        ∧ is_already_posted (generate_content_id fp) st.posted = false
        ∧ env.fileOk fp = true
        ∧ env.sendOutcome fp = SendOutcome.ok
        ∧ (env.enableReactions && env.reactionFails fp) = false
        ∧ env.persistOk = true))
    ∧ (env.persistOk = false → (post_content env maxE st fp sc).1 = false)
    ∧ ((env.channelExists = false ∨ env.sendOutcome fp ≠ SendOutcome.ok) →
        (post_content env maxE st fp sc).1 = false
        ∧ (post_content env maxE st fp sc).2.posted = st.posted
        ∧ (post_content env maxE st fp sc).2.persisted = st.persisted
        ∧ is_already_posted (generate_content_id fp) (post_content env maxE st fp sc).2.posted
            = is_already_posted (generate_content_id fp) st.posted) := by
  cases hch : env.channelExists <;>
    cases hap : is_already_posted (generate_content_id fp) st.posted <;>
      cases hf : env.fileOk fp <;>
        cases hso : env.sendOutcome fp <;>
          cases hre : env.enableReactions && env.reactionFails fp <;>
            cases hp : env.persistOk <;>
              simp [post_content, hch, hap, hf, hso, hre, hp]

/-! ### C3: idempotence of publish -/

/-- C3, counterexample: two publish calls for the same path make two external
send calls when the first invocation fails between its send and its ledger
record (here every add_reaction raises HTTPException), refuting the
unconditional one-send accounting. -/
theorem c3_counterexample_double_send :
    ((post_content envReactFail 1000
        (post_content envReactFail 1000 st0 "x.jpg" (mkRat 9 10)).2
        "x.jpg" (mkRat 9 10)).2).sends = ["x.jpg", "x.jpg"] := by
  decide

/-- C3, amended: when the first publish of a path completes its send and its
record (channel found, file opened, send and reactions succeeded on a path
not yet in the ledger), a second publish with the same content id makes no
further external send and returns the non-posted result with the state
untouched: exactly one send across the two invocations. -/
theorem c3_publish_idempotent_on_success
    (env : PubEnv) (maxE : ℕ) (st : PubState) (p q : String) (sc1 sc2 : ℚ)
    (hch : env.channelExists = true) (hf : env.fileOk p = true)
    (hs : env.sendOutcome p = SendOutcome.ok)
    (hr : (env.enableReactions && env.reactionFails p) = false)
    (hnew : is_already_posted (generate_content_id p) st.posted = false)
    (hq : generate_content_id q = generate_content_id p) :
    (post_content env maxE st p sc1).2.sends = st.sends ++ [p]
    ∧ post_content env maxE (post_content env maxE st p sc1).2 q sc2
        = (false, (post_content env maxE st p sc1).2) := by
  have key : is_already_posted (generate_content_id p)
      (record_post maxE st.posted
        { content_id := generate_content_id p, file_path := p, ai_score := sc1 }) = true := by
    simpa using already_in_record_post maxE st.posted
      { content_id := generate_content_id p, file_path := p, ai_score := sc1 }
  cases hp : env.persistOk <;>
    simp [post_content, hch, hf, hs, hr, hnew, hp, hq, key]

/-- C3, witness: the amended idempotence law at a concrete successful run. -/
theorem c3_idempotence_witness :
    (post_content envOk 1000 st0 "x.jpg" (mkRat 9 10)).2.sends = st0.sends ++ ["x.jpg"]
    ∧ post_content envOk 1000 (post_content envOk 1000 st0 "x.jpg" (mkRat 9 10)).2
        "x.jpg" (mkRat 8 10)
        = (false, (post_content envOk 1000 st0 "x.jpg" (mkRat 9 10)).2) :=
  c3_publish_idempotent_on_success envOk 1000 st0 "x.jpg" "x.jpg" (mkRat 9 10) (mkRat 8 10)
    rfl rfl rfl rfl (by decide) rfl

/-! ### C4: ledger boundedness -/

/-- C4, counterexample: with max_history_entries configured to 0, one record
leaves one persisted entry, because the Python slice l[-0:] keeps the whole
list, so the bound is violated. -/
theorem c4_counterexample_zero_cap :
    ¬ (record_post 0 [] entE1).length ≤ 0 := by decide

/-- Recording once, under a positive cap, keeps exactly the newest entries:
a single equation covering both the no-trim and the trim case. -/
theorem record_post_drop_eq (maxE : ℕ) (hmax : 1 ≤ maxE)
    (l : List PostedEntry) (e : PostedEntry) :
    record_post maxE l e = (l ++ [e]).drop ((l ++ [e]).length - maxE) := by
  have hlen : (l ++ [e]).length = l.length + 1 := by simp
  unfold record_post save_history_trim slice_last
  rw [hlen]
  by_cases h : maxE < l.length + 1
  · have h0 : maxE ≠ 0 := by omega
    simp [h, h0]
  · have hz : l.length + 1 - maxE = 0 := by omega
    simp [h, hz]

/-- C4, amended: provided max_history_entries is at least 1, any nonempty
sequence of record calls leaves exactly the most recent entries -- the suffix
of the full append history of length at most the cap -- so the persisted
ledger is bounded by the cap and eviction is a pure trim of the oldest
entries.  (At cap 0 the slice l[-0:] keeps everything: the counterexample.) -/
theorem c4_ledger_bounded_trim (maxE : ℕ) (l es : List PostedEntry)
    (hmax : 1 ≤ maxE) (hes : es ≠ []) :
    es.foldl (record_post maxE) l = (l ++ es).drop ((l ++ es).length - maxE)
    ∧ (es.foldl (record_post maxE) l).length ≤ maxE := by
  have main : ∀ (es : List PostedEntry) (l : List PostedEntry), es ≠ [] →
      es.foldl (record_post maxE) l = (l ++ es).drop ((l ++ es).length - maxE) := by
    intro es
    induction es with
    | nil => intro l h; exact absurd rfl h
    | cons e es ih =>
      intro l _
      simp only [List.foldl_cons]
      by_cases hnil : es = []
      · subst hnil
        simp only [List.foldl_nil]
        rw [record_post_drop_eq maxE hmax]
      · rw [ih (record_post maxE l e) hnil, record_post_drop_eq maxE hmax]
        have hd : (l ++ [e]).length - maxE ≤ (l ++ [e]).length := Nat.sub_le _ _
        rw [← List.drop_append_of_le_length hd, List.drop_drop]
        have hassoc : l ++ [e] ++ es = l ++ e :: es := by simp
        rw [hassoc]
        congr 1
        simp only [List.length_append, List.length_drop, List.length_cons,
          List.length_singleton, List.length_nil]
        omega
  have h1 := main es l hes
  refine ⟨h1, ?_⟩
  rw [h1, List.length_drop]
  omega

theorem c4_boundedness_witness :
    [entE1, entE2, entE3].foldl (record_post 2) []
        = (([] : List PostedEntry) ++ [entE1, entE2, entE3]).drop
            ((([] : List PostedEntry) ++ [entE1, entE2, entE3]).length - 2)
    ∧ ([entE1, entE2, entE3].foldl (record_post 2) []).length ≤ 2 :=
  c4_ledger_bounded_trim 2 [] [entE1, entE2, entE3] (by decide) (List.cons_ne_nil _ _)

/-! ### C5 and C6: the scoring contract -/

/-- C5: when the image opens, the overall score is the clamped weighted sum
0.6 * semantic + 0.4 * heuristic; when opening raises, the handler returns
exactly 0; and in every case the returned score lies in the unit interval. -/
theorem c5_score_formula_and_range (c : ℚ) (im : Option ImgProps) :
    score_meme true c im
      = clamp01 (c * mkRat 6 10 + get_heuristic_score im * mkRat 4 10)
    ∧ score_meme false c im = 0
    ∧ ∀ b : Bool, 0 ≤ score_meme b c im ∧ score_meme b c im ≤ 1 := by
  refine ⟨rfl, rfl, ?_⟩
  intro b
  cases b
  · simp [score_meme]
  · exact ⟨clamp01_nonneg _, clamp01_le_one _⟩

/-- C6: when cv2.imread cannot decode the payload, the heuristic sub-score
is exactly 0.3, and that is the value the overall score combines with the
0.4 weight. -/
theorem c6_undecodable_heuristic :
    get_heuristic_score none = mkRat 3 10
    ∧ (mkRat 3 10 : ℚ) = 3 / 10
    ∧ ∀ c : ℚ, score_meme true c none
        = clamp01 (c * mkRat 6 10 + mkRat 3 10 * mkRat 4 10) := by
  refine ⟨rfl, ?_, fun c => rfl⟩
  rw [Rat.mkRat_eq_div]
  norm_num

/-! ### C7: caption failure handling -/

/-- C7, counterexample: when caption generation raises for the only selected
item, the orchestrator skips the item entirely — the loop ends with the
state untouched, no send made and no post attempted — instead of falling
back to a caption and publishing. -/
theorem c7_counterexample_caption_skip :
    publish_loop envCapFail 1000 st0 0 1 selA = (st0, 0, [PubEvent.capfail "a.jpg"]) := by
  decide

/-- C7, amended: a caption exception makes run_cycle log and skip that item
— no publish attempt, no fallback caption, state and posted count unchanged
— and continue with the remaining items. -/
theorem c7_caption_failure_skips_item (env : PubEnv) (maxE : ℕ) (st : PubState)
    (posted total : ℕ) (i : SelItem) (rest : List SelItem)
    (hc : env.captionFails i.path = true) :
    publish_loop env maxE st posted total (i :: rest)
      = cons_ev (PubEvent.capfail i.path) (publish_loop env maxE st posted total rest) := by
  simp [publish_loop, hc]

/-- C7, witness: the skip equation at a concrete caption failure. -/
theorem c7_caption_witness :
    publish_loop envCapFail 1000 st0 0 1 selA
      = cons_ev (PubEvent.capfail "a.jpg") (publish_loop envCapFail 1000 st0 0 1 []) :=
  c7_caption_failure_skips_item envCapFail 1000 st0 0 1
    { path := "a.jpg", score := mkRat 9 10 } [] rfl

/-! ### C8: loading a damaged ledger -/

/-- C8, counterexample: an unreadable (I/O error) backing file does crash the
load — only json.JSONDecodeError is caught — so loading does not degrade to
an empty ledger in that case. -/
theorem c8_counterexample_unreadable :
    load_history LedgerFile.unreadable = Except.error () := rfl

/-- C8, amended: a corrupt (undecodable JSON) backing file and a missing file
both load as the empty ledger without crashing; an unreadable file instead
propagates its I/O exception. -/
theorem c8_load_history_recovery :
    load_history LedgerFile.corrupt = Except.ok []
    ∧ load_history LedgerFile.missing = Except.ok []
    ∧ load_history LedgerFile.unreadable = Except.error () :=
  ⟨rfl, rfl, rfl⟩

/-! ### C9: placement of the inter-post delay -/

/-- The publishing loop's trace obeys the sleep-placement discipline from any
starting count: sleeps appear only immediately after successful posts, and
after a successful post exactly when the updated success count is still below
the number of selected items. -/
theorem sleep_spec_aux (env : PubEnv) (maxE total : ℕ) :
    ∀ (sel : List SelItem) (st : PubState) (posted : ℕ),
      SleepSpec total posted (publish_loop env maxE st posted total sel).2.2 := by
  intro sel
  induction sel with
  | nil => intro st posted; exact SleepSpec.nil posted
  | cons i rest ih =>
    intro st posted
    by_cases hc : env.captionFails i.path = true
    · simp only [publish_loop, hc, if_true, cons_ev]
      exact SleepSpec.skip posted i.path _ (ih st posted)
    · by_cases hp : (post_content env maxE st i.path i.score).1 = true
      · by_cases hlt : posted + 1 < total
        · simp only [publish_loop, hc, if_false, hp, if_true, hlt, cons_ev]
          exact SleepSpec.post_sleep posted i.path _ hlt
            (ih (post_content env maxE st i.path i.score).2 (posted + 1))
        · simp only [publish_loop, hc, if_false, hp, if_true, hlt, cons_ev]
          exact SleepSpec.post_done posted i.path _ hlt
            (ih (post_content env maxE st i.path i.score).2 (posted + 1))
      · simp only [publish_loop, hc, if_false, hp, cons_ev]
        exact SleepSpec.fail posted i.path _
          (ih (post_content env maxE st i.path i.score).2 posted)

/-- C9, counterexample: with two selected items where the first send fails
and the second posts, the loop sleeps after the final item (1 posted < 2
selected), refuting that the delay never follows the last selected item. -/
theorem c9_counterexample_sleep_after_last :
    (publish_loop envBFail 1000 st0 0 selBA.length selBA).2.2
      = [PubEvent.attempt "b.jpg" false, PubEvent.attempt "a.jpg" true, PubEvent.sleep]
    ∧ (publish_loop envBFail 1000 st0 0 selBA.length selBA).2.2.getLast?
      = some PubEvent.sleep := by
  constructor
  · decide
  · decide

/-- C9, amended: in every cycle the delay is observed only immediately after
a publish that returned Posted, never after a Failed outcome or a skipped
item, and after a Posted outcome exactly when the number of items posted so
far is still below the number of selected items — in particular there is no
delay after the last item when every item posted, but a delay can follow the
last item when an earlier item failed. -/
theorem c9_sleep_placement (env : PubEnv) (maxE : ℕ) (st : PubState)
    (sel : List SelItem) :
    SleepSpec sel.length 0 (publish_loop env maxE st 0 sel.length sel).2.2 :=
  sleep_spec_aux env maxE sel.length sel st 0

/-! ### C10: the dedup key is the basename hash -/

/-- C10: the content id is the first 16 hex characters of the md5 of the
path's basename, so it depends on the basename alone; once a path is
recorded, any path with the same basename is refused by the publisher with
no external send and no state change, whatever its actual bytes. -/
theorem c10_content_id_basename_only (p q : String) (env : PubEnv) (maxE : ℕ)
    (st : PubState) (sc : ℚ)
    (hname : path_name p = path_name q)
    (hposted : is_already_posted (generate_content_id p) st.posted = true) :
    generate_content_id p = str_take (md5hex (path_name p)) 16
    ∧ generate_content_id q = generate_content_id p
    ∧ post_content env maxE st q sc = (false, st) := by
  have hq : generate_content_id q = generate_content_id p := by
    unfold generate_content_id
    rw [hname]
  refine ⟨rfl, hq, ?_⟩
  have hpq : is_already_posted (generate_content_id q) st.posted = true := by
    rw [hq]; exact hposted
  cases hch : env.channelExists <;> simp [post_content, hch, hpq]

/-- C10, witness: a/x.jpg and b/x.jpg share the basename x.jpg, so after the
first is in the ledger the second is refused untouched. -/
theorem c10_basename_collision_witness :
    generate_content_id "a/x.jpg" = str_take (md5hex (path_name "a/x.jpg")) 16
    ∧ generate_content_id "b/x.jpg" = generate_content_id "a/x.jpg"
    ∧ post_content envOk 1000 stX "b/x.jpg" (mkRat 1 2) = (false, stX) :=
  c10_content_id_basename_only "a/x.jpg" "b/x.jpg" envOk 1000 stX (mkRat 1 2)
    (by decide) (by simp [is_already_posted, stX, ledgerX, entryX])

/-! ### Validation of the embedding against known values -/

set_option maxRecDepth 100000 in
/-- The embedded md5 agrees with RFC 1321's test vectors. -/
theorem md5hex_rfc_vectors :
    md5hex "" = "d41d8cd98f00b204e9800998ecf8427e"
    ∧ md5hex "abc" = "900150983cd24fb0d6963f7d28e17f72" := by
  constructor
  · decide
  · decide

set_option maxRecDepth 100000 in
/-- The content id of any path ending in x.jpg is the first 16 hex digits of
md5("x.jpg"), matching hashlib. -/
theorem content_id_vector : generate_content_id "memes/x.jpg" = "3e602dd0ab83a3a8" := by
  decide

/-- The spec's selection scenario: threshold 0.65, budget 2, scores
0.9/0.7/0.5/0.95 select the 0.95 and 0.9 items in that order. -/
theorem select_items_scenario :
    select_items
      [{ path := "a", score := mkRat 9 10 }, { path := "b", score := mkRat 7 10 },
       { path := "c", score := mkRat 5 10 }, { path := "d", score := mkRat 95 100 }]
      (mkRat 65 100) 2
      = [{ path := "d", score := mkRat 95 100 }, { path := "a", score := mkRat 9 10 }] := by
  decide
